import Mathlib

/-
  Verification of the gowitness probe engine against its design description.

  The definitions below are a shallow embedding of the Go sources:
  - the `Runner` orchestrator (`pkg/runner`: `Runner.Run`, `Runner.runWriters`),
  - the two browser drivers (`pkg/runner/drivers/chromedp.go`: `Chromedp.Witness`
    and `Gorod.Witness`), in particular their DevTools event listeners, the
    extra-header parsing, the navigation / user-JavaScript error policies and
    the screenshot pipeline,
  - the data model (`pkg/models`: `Result`, `NetworkLog`, `TLS`, ...).

  Go machine integers are modelled as `Int`/`Nat`; `time.Time` values as `Int`
  (an epoch instant, the zero time being `0`); Go `nil`-able pointers as
  `Option`; Go maps as association lists with insert-at-front / first-match
  lookup, which reproduces Go's overwrite-on-assign lookup semantics.
  External effects (DevTools RPC outcomes, disk writes, image decoding) are
  passed in as explicit outcome values, so every driver step is a pure,
  executable function of its inputs.
-/

namespace Gowitness

/- ===================== data model (pkg/models) ===================== -/

/-- models.RequestType: the kind of a network request (models.HTTP, models.WS). -/
inductive RequestType
  | http
  | websocket
deriving DecidableEq

/-- models.Header: one response header key/value pair. -/
structure Header where
  key : String
  value : String
deriving DecidableEq

/-- models.TLSSanList: one subject-alternative-name entry. -/
structure TLSSanList where
  value : String
deriving DecidableEq

/-- models.TLS: certificate details of the first response. -/
structure TLS where
  protocol : String
  keyExchange : String
  cipher : String
  subjectName : String
  sanList : List TLSSanList
  issuer : String
  validFrom : Int
  validTo : Int
  serverSignatureAlgorithm : Int
  encryptedClientHello : Bool
deriving DecidableEq

/-- models.NetworkLog: one sub-request entry of `Result.Network`. -/
structure NetworkLog where
  time : Int
  requestType : RequestType
  url : String
  statusCode : Int
  remoteIP : String
  mimeType : String
  error : String
  content : String
deriving DecidableEq

/-- models.ConsoleLog: one captured console.* call. -/
structure ConsoleLog where
  type : String
  value : String
deriving DecidableEq

/-- models.Technology: one fingerprinted technology. -/
structure Technology where
  value : String
deriving DecidableEq

/-- models.Result: the observation record for one target.  Go's zero-valued
`models.TLS` struct member is modelled as `tls : Option TLS` with `none`
standing for "never populated". -/
structure Result where
  url : String
  probedAt : Int
  finalURL : String
  responseCode : Int
  responseReason : String
  protocol : String
  contentLength : Int
  headers : List Header
  tls : Option TLS
  failed : Bool
  failedReason : String
  network : List NetworkLog
  console : List ConsoleLog
  title : String
  html : String
  filename : String
  screenshot : String
  perceptionHash : String
deriving DecidableEq

/-- The `models.Result` value as initialised at the top of both `Witness`
implementations: `URL` is the target and `ProbedAt` the entry time; every
other field still has its zero value. -/
def initResult (target : String) (now : Int) : Result :=
  { url := target, probedAt := now, finalURL := "", responseCode := 0,
    responseReason := "", protocol := "", contentLength := 0, headers := [],
    tls := none, failed := false, failedReason := "", network := [],
    console := [], title := "", html := "", filename := "", screenshot := "",
    perceptionHash := "" }

/- ===================== orchestrator (pkg/runner Runner) ===================== -/

/-- The error classification `Runner.Run` performs on a `Witness` error:
`runner.ChromeNotFoundError` (matched with `errors.As`) versus anything else. -/
inductive WitnessError
  | chromeNotFound (msg : String)
  | other (msg : String)
deriving DecidableEq

/-- What one worker-loop iteration of `Runner.Run` does with a target after
`Driver.Witness` has returned:
- `abortRun`: `run.cancel()` was called and the worker returned (fatal),
- `skipped logged`: `continue` without invoking any writer (`logged` records
  whether an error line was emitted, i.e. `Logging.LogScanErrors`),
- `written n e`: the writer fan-out ran; the first `n` writers of the slice
  were invoked, in slice order, each exactly once; `e` is the error
  `runWriters` returned (logged by `Run`), or `none`. -/
inductive TargetOutcome
  | abortRun
  | skipped (logged : Bool)
  | written (invoked : Nat) (writeErr : Option String)
deriving DecidableEq

/-- `Runner.runWriters`: iterate the writer slice, calling `Write(result)` on
each; return the first error immediately, `nil` if all succeed.  A writer's
behaviour on this one result is its outcome `Option String` (`some` = error).
The returned pair is (number of writers invoked, returned error): the loop
invokes writers `0..n-1` of the slice in order and stops early on an error. -/
def runWriters : List (Option String) → Nat × Option String
  | [] => (0, none)
  | w :: rest =>
    match w with
    | some e => (1, some e)
    | none =>
      let r := runWriters rest
      (r.1 + 1, r.2)

/-- The per-target tail of the `Runner.Run` worker loop, from the point where
`Driver.Witness` has returned: a `ChromeNotFoundError` cancels the run; any
other error logs (if `LogScanErrors`) and continues; a result with
`ResponseCode == 0` is dropped without touching the writers; otherwise the
result goes through `runWriters` and a write error is only logged. -/
def handleTarget (logScanErrors : Bool) (witnessed : Except WitnessError Result)
    (writerOutcomes : List (Option String)) : TargetOutcome :=
  match witnessed with
  | .error (.chromeNotFound _) => .abortRun
  | .error (.other _) => .skipped logScanErrors
  | .ok result =>
    if result.responseCode = 0 then
      .skipped logScanErrors
    else
      let w := runWriters writerOutcomes
      .written w.1 w.2

/- ============ extra-header parsing (both drivers, identical code) ============ -/

/-- The whitespace set of Go's `unicode.IsSpace` restricted to ASCII, which is
what `strings.TrimSpace` strips from header pieces. -/
def isGoSpace (c : Char) : Bool :=
  c == ' ' || c == '\t' || c == '\n' || c == '\x0b' || c == '\x0c' || c == '\r'

/-- Go `strings.TrimSpace` on a line of characters: drop leading and trailing
whitespace. -/
def goTrimSpace (s : List Char) : List Char :=
  ((s.dropWhile isGoSpace).reverse.dropWhile isGoSpace).reverse

/-- Go `strings.SplitN(s, ":", 2)` when it yields two pieces: split the line at
its first colon.  `none` models the `len(kv) != 2` case (no colon at all). -/
def splitOnColon : List Char → Option (List Char × List Char)
  | [] => none
  | c :: cs =>
    if c = ':' then some ([], cs)
    else
      match splitOnColon cs with
      | some p => some (c :: p.1, p.2)
      | none => none

/-- One iteration of the header loop shared by `Chromedp.Witness` and
`Gorod.Witness`: `kv := strings.SplitN(header, ":", 2)`; if `len(kv) != 2`
the line is warned about and skipped (`none`); otherwise the trimmed pair
`(TrimSpace(kv[0]), TrimSpace(kv[1]))` is accepted. -/
def parseHeaderLine (line : List Char) : Option (List Char × List Char) :=
  match splitOnColon line with
  | none => none
  | some kv => some (goTrimSpace kv.1, goTrimSpace kv.2)

/-- The trimmed key/value pairs the header loop hands to the browser
(the `network.Headers` map assignments in `Chromedp.Witness`, the flat
`headers` slice in `Gorod.Witness`), in input order. -/
def acceptedHeaders (lines : List (List Char)) : List (List Char × List Char) :=
  lines.filterMap parseHeaderLine

/-- Number of ':' characters in a line. -/
def colonCount (line : List Char) : Nat :=
  (line.filter (fun c => c == ':')).length

/- ============ navigation error policy (Witness, both drivers) ============ -/

/-- The error a navigation call can produce: Go's `context.DeadlineExceeded`
sentinel, or any other error with its text. -/
inductive NavError
  | deadlineExceeded
  | other (msg : String)
deriving DecidableEq

/-- The text of a navigation error. -/
def NavError.text : NavError → String
  | .deadlineExceeded => "context deadline exceeded"
  | .other m => m

/-- `Chromedp.Witness` navigation check:
`if err := chromedp.Run(navigationCtx, chromedp.Navigate(target)); err != nil
&& err != context.DeadlineExceeded { return nil, ... }` — the returned fatal
error, `none` meaning Witness continues. -/
def chromedpNavigateCheck (navErr : Option NavError) : Option String :=
  match navErr with
  | none => none
  | some .deadlineExceeded => none
  | some (.other m) => some ("could not navigate to target: " ++ m)

/-- `Gorod.Witness` navigation check:
`if err := page.Navigate(target); err != nil { return nil, ... }` — any
navigation error, deadline expiry included, is returned as fatal. -/
def gorodNavigateCheck (navErr : Option NavError) : Option String :=
  match navErr with
  | none => none
  | some e => some ("could not navigate to target: " ++ e.text)

/- ============ user-JavaScript evaluation step (Witness, both drivers) ============ -/

/-- Outcome of evaluating the user-supplied JavaScript in the page. -/
inductive EvalOutcome
  | ok
  | failed (msg : String)
deriving DecidableEq

/-- Observable effect of the user-JavaScript step of `Witness`: `err` is an
error returned by `Witness` at this point (aborting the target), `warnLogged`
whether a warning line was emitted, `result` the result record afterwards. -/
structure JsStepOut where
  err : Option String
  warnLogged : Bool
  result : Result
deriving DecidableEq

/-- `Chromedp.Witness` user-JavaScript step: when `Scan.JavaScript` is
non-empty and `chromedp.Run(navigationCtx, chromedp.Evaluate(...))` fails,
Witness returns `fmt.Errorf("failed to evaluate user-provided javascript: %w",
err)`. -/
def chromedpJsStep (javascript : String) (r : Result) (outcome : EvalOutcome) : JsStepOut :=
  if javascript = "" then { err := none, warnLogged := false, result := r }
  else
    match outcome with
    | .ok => { err := none, warnLogged := false, result := r }
    | .failed m =>
      { err := some ("failed to evaluate user-provided javascript: " ++ m),
        warnLogged := false, result := r }

/-- `Gorod.Witness` user-JavaScript step: when `Scan.JavaScript` is non-empty
and `page.Eval` fails, a warning is logged and Witness carries on with the
unchanged result. -/
def gorodJsStep (javascript : String) (r : Result) (outcome : EvalOutcome) : JsStepOut :=
  if javascript = "" then { err := none, warnLogged := false, result := r }
  else
    match outcome with
    | .ok => { err := none, warnLogged := false, result := r }
    | .failed _ => { err := none, warnLogged := true, result := r }

/- ============ screenshot pipeline (Witness, both drivers, identical tail) ============ -/

/-- The screenshot-related scan options consumed by the pipeline. -/
structure ScanShotOptions where
  screenshotToWriter : Bool
  screenshotSkipSave : Bool
  screenshotFormat : String
deriving DecidableEq

/-- Models the external `encoding/base64` StdEncoding encoder applied to the
captured image bytes; only where it is invoked matters to the design, not its
exact output. -/
def base64Encode (img : List Nat) : String :=
  String.intercalate "," (img.map toString)

/-- Modelled from the spec: `islazy.SafeFileName` (its source is not part of
this tree) "replaces path-unsafe characters deterministically". -/
def safeFileName (target : String) : String :=
  String.mk (target.toList.map (fun c =>
    if c.isAlphanum || c == '.' || c == '-' then c else '-'))

/-- Modelled from the spec: `islazy.LeftTrucate` (its source is not part of
this tree) keeps at most the first `n` characters of the filename
("left-truncate to 200 characters"). -/
def leftTruncate (s : String) (n : Nat) : String :=
  String.mk (s.toList.take n)

/-- Outcomes of the external effects the screenshot tail of `Witness`
performs, in program order: the capture call, the `os.WriteFile` disk write
(`some` = error; consulted only when a write is attempted), `image.Decode`,
and `goimagehash.PerceptionHash` (`ok` carries the hash string). -/
structure ShotOracles where
  capture : Except String (List Nat)
  diskWrite : Option String
  decode : Except String Unit
  hash : Except String String

/-- What `Witness` returns from its screenshot tail: `fatal e` models
`return nil, e` and `done r` models reaching `return result, nil`. -/
inductive WitnessOutcome
  | fatal (err : String)
  | done (r : Result)
deriving DecidableEq

/-- Which external effects the screenshot tail attempted. -/
structure ShotTrace where
  diskWriteAttempted : Bool
  hashAttempted : Bool
deriving DecidableEq

/-- The screenshot tail of `Witness`, identical in both drivers: on capture
error set `failed = true, failedReason = err` and return the result; on
capture success optionally embed base64, optionally write the file to disk
(write failure is fatal), then decode the image and compute the perceptual
hash (either failure is fatal). -/
def screenshotPhase (opts : ScanShotOptions) (target : String) (r : Result)
    (o : ShotOracles) : WitnessOutcome × ShotTrace :=
  match o.capture with
  | .error e =>
    (.done { r with failed := true, failedReason := e },
     { diskWriteAttempted := false, hashAttempted := false })
  | .ok img =>
    let r1 := if opts.screenshotToWriter then { r with screenshot := base64Encode img } else r
    let r2 :=
      if opts.screenshotSkipSave then r1
      else
        { r1 with
          filename := leftTruncate (safeFileName target ++ "." ++ opts.screenshotFormat) 200 }
    match opts.screenshotSkipSave, o.diskWrite with
    | false, some werr =>
      (.fatal ("could not write screenshot to disk: " ++ werr),
       { diskWriteAttempted := true, hashAttempted := false })
    | _, _ =>
      match o.decode with
      | .error derr =>
        (.fatal ("failed to decode screenshot image: " ++ derr),
         { diskWriteAttempted := !opts.screenshotSkipSave, hashAttempted := false })
      | .ok _ =>
        match o.hash with
        | .error herr =>
          (.fatal ("failed to calculate image perception hash: " ++ herr),
           { diskWriteAttempted := !opts.screenshotSkipSave, hashAttempted := true })
        | .ok hstr =>
          (.done { r2 with perceptionHash := hstr },
           { diskWriteAttempted := !opts.screenshotSkipSave, hashAttempted := true })

/- ============ DevTools event listener (the per-target event assembler) ============ -/

/-- The payload of a `Network.requestWillBeSent` event as used by the
listeners (`WallTime`, `Request.URL`, and the `RequestID` the correlation
logic reads). -/
structure RequestWillBeSentEvent where
  requestID : String
  wallTime : Int
  url : String
deriving DecidableEq

/-- cdproto `network.SecurityDetails` as read by `Chromedp.Witness`:
`ValidFrom`/`ValidTo` are nullable (`*cdp.TimeSinceEpoch`), guarded with nil
checks; `ServerSignatureAlgorithm` is a plain `int64`. -/
structure SecurityDetails where
  protocol : String
  keyExchange : String
  cipher : String
  subjectName : String
  sanList : List String
  issuer : String
  validFrom : Option Int
  validTo : Option Int
  serverSignatureAlgorithm : Int
  encryptedClientHello : Bool
deriving DecidableEq

/-- cdproto `network.Response` as read by `Chromedp.Witness`
(`ResponseTime` is nullable).  Go's header map iteration order is
unspecified; headers are modelled as a list in some iteration order. -/
structure Response where
  url : String
  status : Int
  statusText : String
  protocol : String
  encodedDataLength : Int
  headers : List Header
  remoteIPAddress : String
  mimeType : String
  responseTime : Option Int
  securityDetails : Option SecurityDetails
deriving DecidableEq

/-- go-rod `proto.NetworkSecurityDetails` as read by `Gorod.Witness`:
`ValidFrom`/`ValidTo` are plain numbers (converted with
`islazy.Float64ToTime`), but `ServerSignatureAlgorithm` is a nullable
pointer (`*int`) that the handler dereferences. -/
structure RodSecurityDetails where
  protocol : String
  keyExchange : String
  cipher : String
  subjectName : String
  sanList : List String
  issuer : String
  validFrom : Int
  validTo : Int
  serverSignatureAlgorithm : Option Int
  encryptedClientHello : Bool
deriving DecidableEq

/-- go-rod `proto.NetworkResponse` as read by `Gorod.Witness`
(`ResponseTime` is not nullable there). -/
structure RodResponse where
  url : String
  status : Int
  statusText : String
  protocol : String
  encodedDataLength : Int
  headers : List Header
  remoteIPAddress : String
  mimeType : String
  responseTime : Int
  securityDetails : Option RodSecurityDetails
deriving DecidableEq

/-- The events handled by the `chromedp.ListenTarget` callback of
`Chromedp.Witness`. -/
inductive CEvent
  | javascriptDialogOpening
  | consoleAPICalled (type : String) (args : List String)
  | requestWillBeSent (e : RequestWillBeSentEvent)
  | responseReceived (requestID : String) (response : Response)
  | loadingFailed (requestID : String) (errorText : String)
deriving DecidableEq

/-- The events handled by the `page.EachEvent` callbacks of `Gorod.Witness`
(console argument values are nullable there: `!arg.Value.Nil()`). -/
inductive GEvent
  | javascriptDialogOpening
  | consoleAPICalled (type : String) (args : List (Option String))
  | requestWillBeSent (e : RequestWillBeSentEvent)
  | responseReceived (requestID : String) (response : RodResponse)
  | loadingFailed (requestID : String) (errorText : String)
deriving DecidableEq

/-- The per-target listener state both `Witness` implementations share: the
result under construction, the captured `first` request event, and the
`netlog` map from request id to its `NetworkLog` entry.  The Go map is an
association list: `mapInsert` prepends and `mapLookup` takes the first match,
reproducing overwrite-on-assign.  Note the Go handlers read map values by
copy and never write updates back into `netlog`. -/
structure ListenerState where
  result : Result
  first : Option RequestWillBeSentEvent
  netlog : List (String × NetworkLog)
deriving DecidableEq

/-- Go `netlog[rid]` lookup. -/
def mapLookup : List (String × NetworkLog) → String → Option NetworkLog
  | [], _ => none
  | (k, v) :: rest, key => if k = key then some v else mapLookup rest key

/-- Go `netlog[rid] = entry` assignment. -/
def mapInsert (m : List (String × NetworkLog)) (k : String) (v : NetworkLog) :
    List (String × NetworkLog) :=
  (k, v) :: m

/-- The listener state at `Witness` entry: fresh result, `first = nil`,
empty netlog. -/
def initListenerState (target : String) (now : Int) : ListenerState :=
  { result := initResult target now, first := none, netlog := [] }

/-- `first != nil && first.RequestID == e.RequestID`. -/
def isFirstId (first : Option RequestWillBeSentEvent) (rid : String) : Bool :=
  match first with
  | none => false
  | some f => f.requestID == rid

/-- The `NetworkLog` entry created on `Network.requestWillBeSent`:
`{Time: e.WallTime.Time(), RequestType: models.HTTP, URL: e.Request.URL}`. -/
def freshLog (wallTime : Int) (url : String) : NetworkLog :=
  { time := wallTime, requestType := .http, url := url, statusCode := 0,
    remoteIP := "", mimeType := "", error := "", content := "" }

/-- `strings.TrimSpace` on a `String`. -/
def trimString (s : String) : String :=
  String.mk (goTrimSpace s.toList)

/-- The top-level result fields the first-response branch assigns in both
drivers before the security-details block: `FinalURL`, `ResponseCode`,
`ResponseReason`, `Protocol`, `ContentLength`, and the appended headers. -/
def setCoreFields (r : Result) (url : String) (status : Int)
    (statusText protocol : String) (encodedDataLength : Int)
    (headers : List Header) : Result :=
  { r with
    finalURL := url
    responseCode := status
    responseReason := statusText
    protocol := protocol
    contentLength := encodedDataLength
    headers := r.headers ++ headers }

/-- The `models.TLS` value `Chromedp.Witness` builds from security details:
`ValidFrom`/`ValidTo` are nil-guarded and default to the zero time. -/
def extractTLSChromedp (sd : SecurityDetails) : TLS :=
  { protocol := sd.protocol, keyExchange := sd.keyExchange, cipher := sd.cipher,
    subjectName := sd.subjectName,
    sanList := sd.sanList.map (fun san => { value := san }),
    issuer := sd.issuer,
    validFrom := (match sd.validFrom with | some t => t | none => 0),
    validTo := (match sd.validTo with | some t => t | none => 0),
    serverSignatureAlgorithm := sd.serverSignatureAlgorithm,
    encryptedClientHello := sd.encryptedClientHello }

/-- The `models.TLS` value `Gorod.Witness` builds from security details.
`int64(*e.Response.SecurityDetails.ServerSignatureAlgorithm)` dereferences
the pointer with no nil check: `none` models the resulting panic. -/
def extractTLSGorod (sd : RodSecurityDetails) : Option TLS :=
  match sd.serverSignatureAlgorithm with
  | none => none
  | some alg =>
    some { protocol := sd.protocol, keyExchange := sd.keyExchange,
           cipher := sd.cipher, subjectName := sd.subjectName,
           sanList := sd.sanList.map (fun san => { value := san }),
           issuer := sd.issuer,
           validFrom := sd.validFrom, validTo := sd.validTo,
           serverSignatureAlgorithm := alg,
           encryptedClientHello := sd.encryptedClientHello }

/-- The mutex-guarded first-request block of the `Network.responseReceived`
handler in `Chromedp.Witness`. -/
def chromedpFirstUpdate (r : Result) (resp : Response) : Result :=
  let r1 := setCoreFields r resp.url resp.status resp.statusText resp.protocol
      resp.encodedDataLength resp.headers
  match resp.securityDetails with
  | none => r1
  | some sd => { r1 with tls := some (extractTLSChromedp sd) }

/-- Same block in `Gorod.Witness`; `none` models the nil-pointer panic on
`ServerSignatureAlgorithm`. -/
def gorodFirstUpdate (r : Result) (resp : RodResponse) : Option Result :=
  let r1 := setCoreFields r resp.url resp.status resp.statusText resp.protocol
      resp.encodedDataLength resp.headers
  match resp.securityDetails with
  | none => some r1
  | some sd =>
    match extractTLSGorod sd with
    | none => none
    | some t => some { r1 with tls := some t }

/-- The netlog-entry update of the `responseReceived` handler in
`Chromedp.Witness` (`entry.Time` only when `ResponseTime != nil`). -/
def updateEntryChromedp (entry : NetworkLog) (resp : Response) : NetworkLog :=
  { entry with
    statusCode := resp.status
    url := resp.url
    remoteIP := resp.remoteIPAddress
    mimeType := resp.mimeType
    time := (match resp.responseTime with | some t => t | none => entry.time) }

/-- The netlog-entry update of the `responseReceived` handler in
`Gorod.Witness` (`entry.Time` set unconditionally). -/
def updateEntryGorod (entry : NetworkLog) (resp : RodResponse) : NetworkLog :=
  { entry with
    statusCode := resp.status
    url := resp.url
    remoteIP := resp.remoteIPAddress
    mimeType := resp.mimeType
    time := resp.responseTime }

/-- The `chromedp.ListenTarget` callback of `Chromedp.Witness` as a state
transition per event.  The optional `SaveContent` body fetch is a background
goroutine that only fills `network[index].Content` later; it is not part of
the synchronous handler and is not modelled here. -/
def chromedpStep (s : ListenerState) (ev : CEvent) : ListenerState :=
  match ev with
  | .javascriptDialogOpening => s
  | .consoleAPICalled ty args =>
    let v := String.join args
    if v = "" then s
    else
      { s with result :=
          { s.result with
            console := s.result.console ++ [{ type := "console." ++ ty, value := trimString v }] } }
  | .requestWillBeSent e =>
    { s with
      first := (match s.first with | none => some e | some f => some f),
      netlog := mapInsert s.netlog e.requestID (freshLog e.wallTime e.url) }
  | .responseReceived rid resp =>
    match mapLookup s.netlog rid with
    | none => s
    | some entry =>
      let r := if isFirstId s.first rid then chromedpFirstUpdate s.result resp
               else s.result
      { s with result := { r with network := r.network ++ [updateEntryChromedp entry resp] } }
  | .loadingFailed rid errText =>
    match mapLookup s.netlog rid with
    | none => s
    | some entry =>
      if isFirstId s.first rid then
        { s with result := { s.result with failed := true, failedReason := errText } }
      else
        { s with result :=
            { s.result with
              network := s.result.network ++ [{ entry with error := errText }] } }

/-- The `page.EachEvent` callbacks of `Gorod.Witness` as a state transition
per event; `none` models the process-killing panic of the nil
`ServerSignatureAlgorithm` dereference. -/
def gorodStep (s : ListenerState) (ev : GEvent) : Option ListenerState :=
  match ev with
  | .javascriptDialogOpening => some s
  | .consoleAPICalled ty args =>
    let v := String.join (args.filterMap id)
    if v = "" then some s
    else
      some { s with result :=
              { s.result with
                console := s.result.console ++ [{ type := "console." ++ ty, value := trimString v }] } }
  | .requestWillBeSent e =>
    some { s with
      first := (match s.first with | none => some e | some f => some f),
      netlog := mapInsert s.netlog e.requestID (freshLog e.wallTime e.url) }
  | .responseReceived rid resp =>
    match mapLookup s.netlog rid with
    | none => some s
    | some entry =>
      let updated : Option Result :=
        if isFirstId s.first rid then gorodFirstUpdate s.result resp
        else some s.result
      match updated with
      | none => none
      | some r =>
        some { s with result := { r with network := r.network ++ [updateEntryGorod entry resp] } }
  | .loadingFailed rid errText =>
    match mapLookup s.netlog rid with
    | none => some s
    | some entry =>
      if isFirstId s.first rid then
        some { s with result := { s.result with failed := true, failedReason := errText } }
      else
        some { s with result :=
                { s.result with
                  network := s.result.network ++ [{ entry with error := errText }] } }

/-- The "top-level fields" a first response anchors: `final_url`,
`response_code`, `response_reason`, `protocol`, `headers`, `tls`. -/
def topFields (r : Result) : String × Int × String × String × List Header × Option TLS :=
  (r.finalURL, r.responseCode, r.responseReason, r.protocol, r.headers, r.tls)

/- ===================== concrete sample values ===================== -/

/-- A result for a target that answered 200. -/
def sampleResult : Result :=
  { initResult "http://example.com/" 0 with responseCode := 200 }

/-- The first request of a sample target. -/
def reqEv1 : RequestWillBeSentEvent :=
  { requestID := "1", wallTime := 10, url := "http://example.com/" }

/-- Netlog entry of the first request. -/
def entry1 : NetworkLog := freshLog 10 "http://example.com/"

/-- Netlog entry of a sub-request. -/
def entry2 : NetworkLog := freshLog 12 "http://example.com/style.css"

/-- A sample listener state: first request "1" captured, two netlog entries. -/
def stEx : ListenerState :=
  { result := initResult "http://example.com/" 0
    first := some reqEv1
    netlog := [("2", entry2), ("1", entry1)] }

/-- A sample chromedp response. -/
def respEx : Response :=
  { url := "http://example.com/", status := 200, statusText := "OK",
    protocol := "http/1.1", encodedDataLength := 1234,
    headers := [{ key := "Server", value := "nginx" }],
    remoteIPAddress := "127.0.0.1", mimeType := "text/html",
    responseTime := some 11, securityDetails := none }

/-- A sample go-rod response. -/
def grspEx : RodResponse :=
  { url := "http://example.com/", status := 200, statusText := "OK",
    protocol := "http/1.1", encodedDataLength := 1234,
    headers := [{ key := "Server", value := "nginx" }],
    remoteIPAddress := "127.0.0.1", mimeType := "text/html",
    responseTime := 11, securityDetails := none }

/-- Screenshot options: default jpeg run that saves to disk. -/
def shotOptsEx : ScanShotOptions :=
  { screenshotToWriter := false, screenshotSkipSave := false, screenshotFormat := "jpeg" }

/-- Screenshot oracles: the capture call itself fails. -/
def shotOracleFail : ShotOracles :=
  { capture := .error "could not grab screenshot", diskWrite := none,
    decode := .ok (), hash := .ok "p:8f0f8f0f8f0f8f0f" }

/-- Screenshot oracles: capture succeeds, the disk write fails. -/
def shotOracleWriteFail : ShotOracles :=
  { capture := .ok [1, 2, 3], diskWrite := some "permission denied",
    decode := .ok (), hash := .ok "p:8f0f8f0f8f0f8f0f" }

/-- Screenshot oracles: capture and write succeed, decoding fails. -/
def shotOracleDecodeFail : ShotOracles :=
  { capture := .ok [1, 2, 3], diskWrite := none,
    decode := .error "image: unknown format", hash := .ok "p:8f0f8f0f8f0f8f0f" }

/- ===================== theorems ===================== -/

/-- Helper: `runWriters` never invokes more writers than the slice holds. -/
theorem runWriters_invoked_le (ws : List (Option String)) :
    (runWriters ws).1 ≤ ws.length := by
  induction ws with
  | nil => simp [runWriters]
  | cons w rest ih =>
    cases w with
    | none => simp [runWriters]; omega
    | some e => simp [runWriters]

/-- C2: for a target whose Witness call returned without error, the
orchestrator runs the writer fan-out (writers invoked each at most once, in
slice order: `runWriters` invokes a prefix of the slice) exactly when
`Result.ResponseCode ≠ 0`; a zero response code makes it drop the result
silently — a `skipped` outcome, not a run abort — with no writer invoked. -/
theorem claim_C2 (logScanErrors : Bool) (r : Result) (ws : List (Option String)) :
    (r.responseCode = 0 → handleTarget logScanErrors (.ok r) ws = .skipped logScanErrors)
    ∧ (r.responseCode ≠ 0 →
        handleTarget logScanErrors (.ok r) ws = .written (runWriters ws).1 (runWriters ws).2
        ∧ (runWriters ws).1 ≤ ws.length) := by
  refine ⟨fun h => by simp [handleTarget, h], fun h => ⟨by simp [handleTarget, h], ?_⟩⟩
  exact runWriters_invoked_le ws

/-- C2 witness: with two always-succeeding writers, a 200 result is written
to both and a 0-code result is dropped. -/
theorem claim_C2_witness :
    handleTarget true (.ok sampleResult) [none, none] = .written 2 none
    ∧ handleTarget true (.ok (initResult "http://example.com/" 0)) [none, none]
        = .skipped true := by
  constructor
  · have h := (claim_C2 true sampleResult [none, none]).2 (by decide)
    exact h.1
  · exact (claim_C2 true (initResult "http://example.com/" 0) [none, none]).1 (by decide)

/-- C3 counterexample: with two writers where the first fails, `runWriters`
returns after invoking only the first writer — the second writer of the slice
never receives the Result, contradicting "every remaining writer in the slice
still receives the Result". -/
theorem claim_C3_counterexample :
    ([some "disk full", none] : List (Option String)).length = 2
    ∧ runWriters [some "disk full", none] = (1, some "disk full") := by
  exact ⟨rfl, rfl⟩

/-- C3 (amended): when a writer's `Write` fails, `runWriters` stops at that
writer and returns its error: the writers before it (all succeeding) were
invoked in order, writers after it are never invoked.  `Runner.Run` logs the
returned error and continues — the run is not aborted (the outcome is
`written`, never `abortRun`). -/
theorem claim_C3_amended (pre post : List (Option String)) (e : String)
    (logScanErrors : Bool) (r : Result)
    (hpre : ∀ x ∈ pre, x = none) (hr : r.responseCode ≠ 0) :
    runWriters (pre ++ some e :: post) = (pre.length + 1, some e)
    ∧ handleTarget logScanErrors (.ok r) (pre ++ some e :: post)
        = .written (pre.length + 1) (some e) := by
  have key : ∀ (p : List (Option String)), (∀ x ∈ p, x = none) →
      runWriters (p ++ some e :: post) = (p.length + 1, some e) := by
    intro p
    induction p with
    | nil => intro _; simp [runWriters]
    | cons x rest ih =>
      intro hp
      have hx : x = none := hp x (List.mem_cons_self _ _)
      subst hx
      have := ih (fun y hy => hp y (List.mem_cons_of_mem _ hy))
      rw [List.cons_append]
      simp [runWriters, this]
  refine ⟨key pre hpre, ?_⟩
  simp [handleTarget, hr, key pre hpre]

/-- C3 amended witness: writers [ok, failing, ok]; the failing writer's error
is surfaced and logged, only the first two writers were invoked, the run goes
on. -/
theorem claim_C3_amended_witness :
    runWriters [none, some "disk full", none] = (2, some "disk full")
    ∧ handleTarget true (.ok sampleResult) [none, some "disk full", none]
        = .written 2 (some "disk full") := by
  have h := claim_C3_amended [none] [none] "disk full" true sampleResult
      (by intro x hx; simpa using hx) (by decide)
  simpa using h

/-- Helper: the colon count of a cons whose head is no colon. -/
theorem colonCount_cons_ne (c : Char) (cs : List Char) (hc : ¬ c = ':') :
    colonCount (c :: cs) = colonCount cs := by
  simp [colonCount, List.filter_cons, hc]

/-- Helper: the two-piece split succeeds on exactly the lines holding at
least one colon. -/
theorem splitOnColon_eq_none_iff (l : List Char) :
    splitOnColon l = none ↔ colonCount l = 0 := by
  induction l with
  | nil => simp [splitOnColon, colonCount]
  | cons c cs ih =>
    by_cases hc : c = ':'
    · subst hc
      simp [splitOnColon, colonCount]
    · rw [colonCount_cons_ne c cs hc]
      cases h : splitOnColon cs with
      | none =>
        have hz := ih.mp h
        simp [splitOnColon, hc, h, hz]
      | some p =>
        have hcs : ¬ colonCount cs = 0 := fun hz => by
          rw [ih.mpr hz] at h; cases h
        simp [splitOnColon, hc, h, hcs]

/-- Helper: whitespace characters are not colons. -/
theorem isGoSpace_ne_colon (c : Char) (h : isGoSpace c = true) : (c == ':') = false := by
  simp [isGoSpace] at h
  rcases h with ((((h | h) | h) | h) | h) | h <;> subst h <;> decide

/-- Helper: stripping leading whitespace keeps the colon count. -/
theorem colonCount_dropWhile (l : List Char) :
    colonCount (l.dropWhile isGoSpace) = colonCount l := by
  induction l with
  | nil => rfl
  | cons c cs ih =>
    by_cases h : isGoSpace c
    · have hc := isGoSpace_ne_colon c h
      simp [List.dropWhile_cons, h, colonCount, hc] at *
      exact ih
    · simp [List.dropWhile_cons, h]

/-- Helper: reversal keeps the colon count. -/
theorem colonCount_reverse (l : List Char) : colonCount l.reverse = colonCount l := by
  simp [colonCount, List.filter_reverse]

/-- Helper: `strings.TrimSpace` keeps the colon count. -/
theorem colonCount_goTrimSpace (l : List Char) :
    colonCount (goTrimSpace l) = colonCount l := by
  unfold goTrimSpace
  rw [colonCount_reverse, colonCount_dropWhile, colonCount_reverse, colonCount_dropWhile]

/-- Helper: a header line is accepted exactly when it holds at least one
colon (equivalently: at least one colon after trimming). -/
theorem parseHeaderLine_isSome_iff (l : List Char) :
    (parseHeaderLine l).isSome = true ↔ 1 ≤ colonCount (goTrimSpace l) := by
  rw [colonCount_goTrimSpace]
  unfold parseHeaderLine
  cases h : splitOnColon l with
  | none =>
    have := (splitOnColon_eq_none_iff l).mp h
    simp [this]
  | some kv =>
    have : ¬ colonCount l = 0 := fun hz => by
      rw [(splitOnColon_eq_none_iff l).mpr hz] at h; cases h
    simp
    omega

/-- C7 counterexample: the line `"a:b:c"` holds two colons, so it is not an
"input line containing exactly one ':' after trimming", yet
`strings.SplitN(line, ":", 2)` yields two pieces and the header loop accepts
it — the accepted count (1) differs from the exactly-one-colon line count
(0). -/
theorem claim_C7_counterexample :
    (acceptedHeaders ["a:b:c".toList]).length = 1
    ∧ (List.filter (fun l => decide (colonCount (goTrimSpace l) = 1)) ["a:b:c".toList]).length
        = 0 := by
  constructor <;> rfl

/-- C7 (amended): for every extra-headers list, the number of accepted
trimmed key/value pairs equals the number of input lines containing at least
one ':' after trimming (trimming cannot change the colon count); a line with
no ':' does not split into a "Name: value" pair and is skipped with a
warning. -/
theorem claim_C7_amended (lines : List (List Char)) :
    (acceptedHeaders lines).length
      = (List.filter (fun l => decide (1 ≤ colonCount (goTrimSpace l))) lines).length
    ∧ ∀ l, parseHeaderLine l = none ↔ colonCount (goTrimSpace l) = 0 := by
  constructor
  · induction lines with
    | nil => rfl
    | cons l ls ih =>
      rw [acceptedHeaders] at *
      rw [List.filterMap_cons, List.filter_cons]
      cases hp : parseHeaderLine l with
      | none =>
        have hs : ¬ (1 ≤ colonCount (goTrimSpace l)) := by
          intro hge
          have := (parseHeaderLine_isSome_iff l).mpr hge
          rw [hp] at this
          cases this
        simp [hs, ih]
      | some kv =>
        have hs : 1 ≤ colonCount (goTrimSpace l) := by
          apply (parseHeaderLine_isSome_iff l).mp
          rw [hp]
          rfl
        simp [hs, ih]
  · intro l
    constructor
    · intro h
      by_contra hne
      have : (parseHeaderLine l).isSome = true :=
        (parseHeaderLine_isSome_iff l).mpr (by omega)
      rw [h] at this
      cases this
    · intro h
      cases hp : parseHeaderLine l with
      | none => rfl
      | some kv =>
        have := (parseHeaderLine_isSome_iff l).mp (by rw [hp]; rfl)
        omega

/-- C4 counterexample: in the Chromedp driver a failing user-JavaScript
evaluation IS returned as Witness's error
(`return nil, fmt.Errorf("failed to evaluate user-provided javascript: %w",
err)`), contradicting "the evaluation error is never returned as Witness's
error". -/
theorem claim_C4_counterexample :
    (chromedpJsStep "console.log(1)" sampleResult (.failed "boom")).err
      = some "failed to evaluate user-provided javascript: boom" := rfl

/-- C4 (amended): the drivers diverge.  In the Gorod driver a failing
user-JavaScript evaluation is only logged as a warning: Witness continues
with the unchanged result (not marked failed) and no error.  In the Chromedp
driver the evaluation failure makes Witness return an error instead of a
Result. -/
theorem claim_C4_amended (javascript : String) (r : Result) (m : String)
    (hjs : javascript ≠ "") :
    gorodJsStep javascript r (.failed m) = { err := none, warnLogged := true, result := r }
    ∧ (chromedpJsStep javascript r (.failed m)).err
        = some ("failed to evaluate user-provided javascript: " ++ m)
    ∧ (gorodJsStep javascript r (.failed m)).result.failed = r.failed := by
  refine ⟨?_, ?_, ?_⟩ <;> simp [gorodJsStep, chromedpJsStep, hjs]

/-- C4 amended witness at a concrete script and failure. -/
theorem claim_C4_amended_witness :
    gorodJsStep "alert(1)" sampleResult (.failed "boom")
      = { err := none, warnLogged := true, result := sampleResult }
    ∧ (chromedpJsStep "alert(1)" sampleResult (.failed "boom")).err
        = some "failed to evaluate user-provided javascript: boom" := by
  have h := claim_C4_amended "alert(1)" sampleResult "boom" (by decide)
  exact ⟨h.1, h.2.1⟩

/-- C5 counterexample: in the Gorod driver a deadline-expiry navigation
error is NOT tolerated — `page.Navigate` failing with the deadline error
makes Witness return an error, contradicting "This holds for both
drivers". -/
theorem claim_C5_counterexample :
    gorodNavigateCheck (some NavError.deadlineExceeded)
      = some "could not navigate to target: context deadline exceeded" := rfl

/-- C5 (amended): in the Chromedp driver, navigation errors other than
`context.DeadlineExceeded` are fatal while a deadline expiry is tolerated
(Witness continues toward a possibly partial Result); in the Gorod driver
EVERY navigation error, deadline expiry included, makes Witness return an
error. -/
theorem claim_C5_amended :
    chromedpNavigateCheck none = none
    ∧ chromedpNavigateCheck (some NavError.deadlineExceeded) = none
    ∧ (∀ m, chromedpNavigateCheck (some (NavError.other m))
        = some ("could not navigate to target: " ++ m))
    ∧ gorodNavigateCheck none = none
    ∧ (∀ e, gorodNavigateCheck (some e)
        = some ("could not navigate to target: " ++ e.text)) := by
  refine ⟨rfl, rfl, fun m => rfl, rfl, fun e => rfl⟩

/-- C8: when screenshot capture fails, the pipeline marks the result
`failed = true` with the capture error as reason, attempts no disk write,
no image decode / perceptual hash, leaves the base64 `screenshot` field
untouched, and Witness still returns the Result (a `done` outcome, error
nil).  When capture succeeds, a disk-write failure or an image-decode
failure makes Witness return an error (`fatal`) instead of a Result. -/
theorem claim_C8 (opts : ScanShotOptions) (target : String) (r : Result) (o : ShotOracles) :
    (∀ e, o.capture = .error e →
      screenshotPhase opts target r o
        = (.done { r with failed := true, failedReason := e },
           { diskWriteAttempted := false, hashAttempted := false }))
    ∧ (∀ img werr, o.capture = .ok img → opts.screenshotSkipSave = false →
        o.diskWrite = some werr →
        (screenshotPhase opts target r o).1
          = .fatal ("could not write screenshot to disk: " ++ werr))
    ∧ (∀ img derr, o.capture = .ok img → o.diskWrite = none →
        o.decode = .error derr →
        (screenshotPhase opts target r o).1
          = .fatal ("failed to decode screenshot image: " ++ derr)) := by
  refine ⟨?_, ?_, ?_⟩
  · intro e he
    simp [screenshotPhase, he]
  · intro img werr hc hskip hd
    simp [screenshotPhase, hc, hskip, hd]
  · intro img derr hc hd hdec
    cases hskip : opts.screenshotSkipSave <;>
      simp [screenshotPhase, hc, hd, hdec, hskip]

/-- C8 witness at concrete oracles: capture failure keeps the Result with
`failed = true` and no effects; write failure and decode failure are fatal. -/
theorem claim_C8_witness :
    screenshotPhase shotOptsEx "http://example.com/" sampleResult shotOracleFail
      = (.done { sampleResult with failed := true, failedReason := "could not grab screenshot" },
         { diskWriteAttempted := false, hashAttempted := false })
    ∧ (screenshotPhase shotOptsEx "http://example.com/" sampleResult shotOracleWriteFail).1
        = .fatal "could not write screenshot to disk: permission denied"
    ∧ (screenshotPhase shotOptsEx "http://example.com/" sampleResult shotOracleDecodeFail).1
        = .fatal "failed to decode screenshot image: image: unknown format" := by
  refine ⟨?_, ?_, ?_⟩
  · exact (claim_C8 shotOptsEx "http://example.com/" sampleResult shotOracleFail).1
      "could not grab screenshot" rfl
  · exact (claim_C8 shotOptsEx "http://example.com/" sampleResult shotOracleWriteFail).2.1
      [1, 2, 3] "permission denied" rfl rfl rfl
  · exact (claim_C8 shotOptsEx "http://example.com/" sampleResult shotOracleDecodeFail).2.2
      [1, 2, 3] "image: unknown format" rfl rfl rfl

/-- C1: in both drivers' `responseReceived` handlers, the top-level Result
fields (`final_url`, `response_code`, `response_reason`, `protocol`,
`headers`, `tls`) are populated exactly by the event whose request id equals
`first_request.request_id`: an event with any other request id (or arriving
while `first` is still nil) never changes them, the matching event assigns
them from its response, and no `requestWillBeSent` or `loadingFailed` event
touches them either. -/
theorem claim_C1 (s : ListenerState) (rid : String) (resp : Response) (grsp : RodResponse) :
    (isFirstId s.first rid = false →
      topFields (chromedpStep s (.responseReceived rid resp)).result = topFields s.result)
    ∧ (isFirstId s.first rid = false →
      ∀ s2, gorodStep s (.responseReceived rid grsp) = some s2 →
        topFields s2.result = topFields s.result)
    ∧ (∀ f entry, s.first = some f → f.requestID = rid →
        mapLookup s.netlog rid = some entry →
        (chromedpStep s (.responseReceived rid resp)).result.finalURL = resp.url
        ∧ (chromedpStep s (.responseReceived rid resp)).result.responseCode = resp.status
        ∧ (chromedpStep s (.responseReceived rid resp)).result.responseReason = resp.statusText
        ∧ (chromedpStep s (.responseReceived rid resp)).result.protocol = resp.protocol
        ∧ (chromedpStep s (.responseReceived rid resp)).result.headers
            = s.result.headers ++ resp.headers
        ∧ (resp.securityDetails = none →
            (chromedpStep s (.responseReceived rid resp)).result.tls = s.result.tls)
        ∧ (∀ sd, resp.securityDetails = some sd →
            (chromedpStep s (.responseReceived rid resp)).result.tls
              = some (extractTLSChromedp sd)))
    ∧ (∀ f entry, s.first = some f → f.requestID = rid →
        mapLookup s.netlog rid = some entry →
        ∀ s2, gorodStep s (.responseReceived rid grsp) = some s2 →
          s2.result.finalURL = grsp.url
          ∧ s2.result.responseCode = grsp.status
          ∧ s2.result.responseReason = grsp.statusText
          ∧ s2.result.protocol = grsp.protocol
          ∧ s2.result.headers = s.result.headers ++ grsp.headers
          ∧ (grsp.securityDetails = none → s2.result.tls = s.result.tls)
          ∧ (∀ sd, grsp.securityDetails = some sd → s2.result.tls = extractTLSGorod sd))
    ∧ (∀ e, topFields (chromedpStep s (.requestWillBeSent e)).result = topFields s.result)
    ∧ (∀ errText, topFields (chromedpStep s (.loadingFailed rid errText)).result
        = topFields s.result) := by
  refine ⟨?_, ?_, ?_, ?_, ?_, ?_⟩
  · intro hfalse
    cases hlk : mapLookup s.netlog rid <;>
      simp [chromedpStep, hlk, hfalse, topFields]
  · intro hfalse s2 h
    cases hlk : mapLookup s.netlog rid with
    | none =>
      simp [gorodStep, hlk] at h
      subst h
      rfl
    | some entry =>
      simp [gorodStep, hlk, hfalse] at h
      subst h
      simp [topFields]
  · intro f entry hf hfr hlk
    have hif : isFirstId s.first rid = true := by simp [isFirstId, hf, hfr]
    cases hsd : resp.securityDetails <;>
      simp [chromedpStep, hlk, hif, chromedpFirstUpdate, setCoreFields, hsd]
  · intro f entry hf hfr hlk s2 h
    have hif : isFirstId s.first rid = true := by simp [isFirstId, hf, hfr]
    cases hsd : grsp.securityDetails with
    | none =>
      simp [gorodStep, hlk, hif, gorodFirstUpdate, hsd] at h
      subst h
      simp [setCoreFields, hsd]
    | some sd =>
      cases halg : sd.serverSignatureAlgorithm with
      | none =>
        simp [gorodStep, hlk, hif, gorodFirstUpdate, hsd, extractTLSGorod, halg] at h
      | some alg =>
        simp [gorodStep, hlk, hif, gorodFirstUpdate, hsd, extractTLSGorod, halg] at h
        subst h
        simp [setCoreFields, hsd, extractTLSGorod, halg]
  · intro e
    simp [chromedpStep, topFields]
  · intro errText
    cases hlk : mapLookup s.netlog rid with
    | none => simp [chromedpStep, hlk, topFields]
    | some entry =>
      cases hif : isFirstId s.first rid <;>
        simp [chromedpStep, hlk, hif, topFields]

/-- C1 witness: in the sample state (first request "1"), a response for
sub-request "2" leaves the top-level fields alone while the response for "1"
anchors them, in both drivers. -/
theorem claim_C1_witness :
    topFields (chromedpStep stEx (.responseReceived "2" respEx)).result = topFields stEx.result
    ∧ (chromedpStep stEx (.responseReceived "1" respEx)).result.finalURL = "http://example.com/"
    ∧ (chromedpStep stEx (.responseReceived "1" respEx)).result.responseCode = 200
    ∧ Option.map (fun s2 => s2.result.responseCode)
        (gorodStep stEx (.responseReceived "1" grspEx)) = some 200 := by
  refine ⟨?_, ?_, ?_, ?_⟩
  · exact (claim_C1 stEx "2" respEx grspEx).1 (by decide)
  · exact ((claim_C1 stEx "1" respEx grspEx).2.2.1 reqEv1 entry1 rfl rfl (by decide)).1
  · exact ((claim_C1 stEx "1" respEx grspEx).2.2.1 reqEv1 entry1 rfl rfl (by decide)).2.1
  · cases hg : gorodStep stEx (.responseReceived "1" grspEx) with
    | none => exact absurd hg (by decide)
    | some s2 =>
      have h := ((claim_C1 stEx "1" respEx grspEx).2.2.2.1 reqEv1 entry1 rfl rfl
        (by decide)) s2 hg
      rw [Option.map_some', h.2.1]
      rfl

/-- C6: on `Network.loadingFailed`, both drivers behave identically: an
event whose request id is absent from the netlog is ignored (state
unchanged); for the first request's id the result is marked
`failed = true` with `failed_reason` the error text and nothing is appended
to `network` (nor is the netlog changed); for any other known id the entry,
annotated with the error text, is appended to `network` and the failed flag
is untouched. -/
theorem claim_C6 (s : ListenerState) (rid errText : String) :
    (mapLookup s.netlog rid = none →
      chromedpStep s (.loadingFailed rid errText) = s
      ∧ gorodStep s (.loadingFailed rid errText) = some s)
    ∧ (∀ entry, mapLookup s.netlog rid = some entry →
        (isFirstId s.first rid = true →
          (chromedpStep s (.loadingFailed rid errText)).result.failed = true
          ∧ (chromedpStep s (.loadingFailed rid errText)).result.failedReason = errText
          ∧ (chromedpStep s (.loadingFailed rid errText)).result.network = s.result.network
          ∧ (chromedpStep s (.loadingFailed rid errText)).netlog = s.netlog
          ∧ gorodStep s (.loadingFailed rid errText)
              = some (chromedpStep s (.loadingFailed rid errText)))
        ∧ (isFirstId s.first rid = false →
          (chromedpStep s (.loadingFailed rid errText)).result.network
              = s.result.network ++ [{ entry with error := errText }]
          ∧ (chromedpStep s (.loadingFailed rid errText)).result.failed = s.result.failed
          ∧ gorodStep s (.loadingFailed rid errText)
              = some (chromedpStep s (.loadingFailed rid errText)))) := by
  refine ⟨?_, ?_⟩
  · intro h
    exact ⟨by simp [chromedpStep, h], by simp [gorodStep, h]⟩
  · intro entry h
    refine ⟨fun hif => ?_, fun hif => ?_⟩ <;>
      simp [chromedpStep, gorodStep, h, hif]

/-- C6 witness: in the sample state, an unknown id is ignored, failure of
first request "1" marks the result failed without appending, and failure of
sub-request "2" appends the annotated entry. -/
theorem claim_C6_witness :
    chromedpStep stEx (.loadingFailed "9" "net::ERR_FAILED") = stEx
    ∧ (chromedpStep stEx (.loadingFailed "1" "net::ERR_FAILED")).result.failed = true
    ∧ (chromedpStep stEx (.loadingFailed "1" "net::ERR_FAILED")).result.network = []
    ∧ (chromedpStep stEx (.loadingFailed "2" "net::ERR_FAILED")).result.network
        = [{ entry2 with error := "net::ERR_FAILED" }] := by
  refine ⟨?_, ?_, ?_, ?_⟩
  · exact ((claim_C6 stEx "9" "net::ERR_FAILED").1 (by decide)).1
  · exact (((claim_C6 stEx "1" "net::ERR_FAILED").2 entry1 (by decide)).1 (by decide)).1
  · have h := (((claim_C6 stEx "1" "net::ERR_FAILED").2 entry1 (by decide)).1 (by decide)).2.2.1
    simpa [stEx, initResult] using h
  · have h := (((claim_C6 stEx "2" "net::ERR_FAILED").2 entry2 (by decide)).2 (by decide)).1
    simpa [stEx, initResult] using h

/-- C9: the Gorod TLS extraction dereferences the nullable
`ServerSignatureAlgorithm` pointer with no nil check, so it panics exactly
when security details are present with a nil pointer: the `responseReceived`
handler step is panic-free iff that precondition holds, and the extraction
succeeds iff the pointer is non-nil.  By contrast the Chromedp handler only
nil-guards `ValidFrom`/`ValidTo`, defaulting them to the zero time, and is
total. -/
theorem claim_C9 (s : ListenerState) (rid : String) (grsp : RodResponse) :
    (∀ sd : RodSecurityDetails,
      (extractTLSGorod sd).isSome = sd.serverSignatureAlgorithm.isSome)
    ∧ (gorodStep s (.responseReceived rid grsp) = none ↔
        (mapLookup s.netlog rid).isSome = true
        ∧ isFirstId s.first rid = true
        ∧ ∃ sd, grsp.securityDetails = some sd ∧ sd.serverSignatureAlgorithm = none)
    ∧ (∀ sd : SecurityDetails,
        (extractTLSChromedp sd).validFrom
            = (match sd.validFrom with | some t => t | none => 0)
        ∧ (extractTLSChromedp sd).validTo
            = (match sd.validTo with | some t => t | none => 0)) := by
  refine ⟨?_, ?_, ?_⟩
  · intro sd
    cases h : sd.serverSignatureAlgorithm <;> simp [extractTLSGorod, h]
  · cases hlk : mapLookup s.netlog rid with
    | none => simp [gorodStep, hlk]
    | some entry =>
      cases hif : isFirstId s.first rid with
      | false => simp [gorodStep, hlk, hif]
      | true =>
        cases hsd : grsp.securityDetails with
        | none => simp [gorodStep, hlk, hif, gorodFirstUpdate, hsd]
        | some sd =>
          cases halg : sd.serverSignatureAlgorithm with
          | none =>
            simp [gorodStep, hlk, hif, gorodFirstUpdate, hsd, extractTLSGorod, halg]
          | some alg =>
            simp [gorodStep, hlk, hif, gorodFirstUpdate, hsd, extractTLSGorod, halg]
  · intro sd
    exact ⟨rfl, rfl⟩

/-- C10: a non-first sub-request that receives a `responseReceived` event and
then a `loadingFailed` event has its netlog entry appended to
`Result.network` twice — once updated with the response data and a still
empty error field (the netlog map keeps the original copy), once as the
original entry annotated with the error text — and nothing deduplicates the
two entries; in both drivers. -/
theorem claim_C10 (s : ListenerState) (rid : String) (resp : Response) (grsp : RodResponse)
    (err : String) (entry : NetworkLog)
    (hlook : mapLookup s.netlog rid = some entry)
    (hfirst : isFirstId s.first rid = false)
    (herr : entry.error = "") :
    (chromedpStep (chromedpStep s (.responseReceived rid resp))
        (.loadingFailed rid err)).result.network
      = s.result.network ++ [updateEntryChromedp entry resp, { entry with error := err }]
    ∧ (updateEntryChromedp entry resp).error = ""
    ∧ ({ entry with error := err } : NetworkLog).error = err
    ∧ (chromedpStep (chromedpStep s (.responseReceived rid resp))
        (.loadingFailed rid err)).result.network.length
      = s.result.network.length + 2
    ∧ (gorodStep s (.responseReceived rid grsp)).isSome = true
    ∧ (∀ s1, gorodStep s (.responseReceived rid grsp) = some s1 →
        (gorodStep s1 (.loadingFailed rid err)).isSome = true
        ∧ ∀ s2, gorodStep s1 (.loadingFailed rid err) = some s2 →
            s2.result.network
              = s.result.network ++ [updateEntryGorod entry grsp, { entry with error := err }]) := by
  have h1 : chromedpStep s (.responseReceived rid resp)
      = { s with result :=
            { s.result with
              network := s.result.network ++ [updateEntryChromedp entry resp] } } := by
    simp [chromedpStep, hlook, hfirst]
  have hnet : (chromedpStep (chromedpStep s (.responseReceived rid resp))
      (.loadingFailed rid err)).result.network
      = s.result.network ++ [updateEntryChromedp entry resp, { entry with error := err }] := by
    rw [h1]
    simp [chromedpStep, hlook, hfirst]
  have g1 : gorodStep s (.responseReceived rid grsp)
      = some { s with result :=
            { s.result with
              network := s.result.network ++ [updateEntryGorod entry grsp] } } := by
    simp [gorodStep, hlook, hfirst]
  refine ⟨hnet, by simp [updateEntryChromedp, herr], rfl, ?_, ?_, ?_⟩
  · rw [hnet]
    simp
  · rw [g1]
    rfl
  · intro s1 hs1
    rw [g1] at hs1
    have hs1' := Option.some.inj hs1
    subst hs1'
    constructor
    · simp [gorodStep, hlook, hfirst]
    · intro s2 hs2
      simp [gorodStep, hlook, hfirst] at hs2
      subst hs2
      simp

/-- C10 witness: in the sample state, sub-request "2" responding and then
failing yields exactly the two appended network entries. -/
theorem claim_C10_witness :
    (chromedpStep (chromedpStep stEx (.responseReceived "2" respEx))
        (.loadingFailed "2" "net::ERR_ABORTED")).result.network
      = [updateEntryChromedp entry2 respEx,
         { entry2 with error := "net::ERR_ABORTED" }] := by
  have h := claim_C10 stEx "2" respEx grspEx "net::ERR_ABORTED" entry2
    (by decide) (by decide) (by decide)
  simpa [stEx, initResult] using h.1

end Gowitness
